import Mathlib

/-!
Shallow embedding of the study-tracker engagement core:
the engagement classifier (`apps/web/src/lib/cv/engagementEngine.ts`),
the session aggregator (`apps/web/src/store/sessionStore.ts`) and the
sync route's series downsampling (`apps/api/src/routes/sync.ts`).

JavaScript numbers are modelled as `ℚ` (timestamps in ms, ratios,
confidence), integer-valued results of `Math.round`/`Math.floor` as `ℤ`.
A thrown `Error` is modelled as `Except.error`; a plain `return` of a
guard clause is `Except.ok` with the state unchanged.  JavaScript
truthiness of an optional number (`!x` is true for both `undefined` and
`0`) is modelled explicitly by `truthy`.
-/

namespace StudyTracker

/-- The four engagement states of `engagementEngine.ts`. -/
inductive EngagementState where
  | engaged
  | distracted
  | sleepy
  | away
deriving DecidableEq, Repr

/-- `CVMetrics` from `mediapipeHands.ts` (the `expressionScores` record is
omitted: it is never read by the engagement engine). -/
structure CVMetrics where
  facePresent : Bool
  eyesClosed : Bool
  yawning : Bool
  lookingAway : Bool
  expressionLabel : String
  eyeAspectRatio : ℚ
  mouthOpenRatio : ℚ
deriving DecidableEq, Repr

/-- `HandMetrics` from `mediapipeHands.ts`. -/
structure HandMetrics where
  handsPresent : Bool
  handsFidgeting : Bool
  handOverFace : Bool
  fidgetingIntensity : ℚ
deriving DecidableEq, Repr

/-- The per-state score weights of `EngagementConfig.stateWeights`. -/
structure StateWeights where
  engaged : ℚ
  distracted : ℚ
  sleepy : ℚ
  away : ℚ
deriving DecidableEq, Repr

/-- `stateWeights[state]` lookup. -/
def StateWeights.get (w : StateWeights) : EngagementState → ℚ
  | .engaged => w.engaged
  | .distracted => w.distracted
  | .sleepy => w.sleepy
  | .away => w.away

/-- `EngagementConfig` from `engagementEngine.ts`. -/
structure EngagementConfig where
  eyeClosedDuration : ℚ
  yawnDuration : ℚ
  lookAwayDuration : ℚ
  baselineScore : ℚ
  stateWeights : StateWeights
deriving DecidableEq, Repr

/-- The constructor defaults of `EngagementEngine`. -/
def defaultConfig : EngagementConfig :=
  { eyeClosedDuration := 1
    yawnDuration := 1
    lookAwayDuration := 1
    baselineScore := 70
    stateWeights := { engaged := 10, distracted := -15, sleepy := -25, away := -20 } }

/-- `StateHistory` from `engagementEngine.ts`: four optional start
timestamps (ms). -/
structure StateHistory where
  eyesClosedStart : Option ℚ := none
  yawnStart : Option ℚ := none
  lookAwayStart : Option ℚ := none
  faceAbsentStart : Option ℚ := none
deriving DecidableEq, Repr

/-- JavaScript truthiness of an optional number: `undefined` and `0` are
falsy, every other value is truthy. -/
def truthy : Option ℚ → Bool
  | none => false
  | some t => decide (t ≠ 0)

/-- `Math.round x` = `⌊x + 0.5⌋` (halves round toward `+∞`). -/
def jsRound (x : ℚ) : ℤ := ⌊x + 1/2⌋

/-- One timer of `updateStateHistory`: the source writes
`if (cond) { if (!start) start = timestamp } else start = undefined`. -/
def updateTimer (cond : Bool) (start : Option ℚ) (timestamp : ℚ) : Option ℚ :=
  if cond then (if truthy start then start else some timestamp) else none

/-- `updateStateHistory` from `engagementEngine.ts`. -/
def updateStateHistory (h : StateHistory) (cv : CVMetrics) (timestamp : ℚ) : StateHistory :=
  { eyesClosedStart := updateTimer cv.eyesClosed h.eyesClosedStart timestamp
    yawnStart := updateTimer cv.yawning h.yawnStart timestamp
    lookAwayStart := updateTimer cv.lookingAway h.lookAwayStart timestamp
    faceAbsentStart := updateTimer (!cv.facePresent) h.faceAbsentStart timestamp }

/-- The duration expression `start ? (timestamp - start) / 1000 : 0` of
`determineEngagementState` (seconds, `0` when the timer is falsy). -/
def timerDuration (start : Option ℚ) (timestamp : ℚ) : ℚ :=
  match start with
  | some s => if s ≠ 0 then (timestamp - s) / 1000 else 0
  | none => 0

/-- `isNegativeExpression` from `engagementEngine.ts`. -/
def isNegativeExpression (expression : String) : Bool :=
  ["sad", "angry", "fearful", "disgusted", "surprised"].contains expression

/-- `determineEngagementState` from `engagementEngine.ts`: the
priority-ordered decision list away → sleepy → distracted → engaged →
distracted. -/
def determineEngagementState (config : EngagementConfig) (h : StateHistory)
    (cv : CVMetrics) (hand : HandMetrics) (timestamp : ℚ) : EngagementState :=
  if cv.facePresent = false ∧ timerDuration h.faceAbsentStart timestamp ≥ 2 then
    .away
  else if timerDuration h.eyesClosedStart timestamp ≥ config.eyeClosedDuration
      ∨ timerDuration h.yawnStart timestamp ≥ config.yawnDuration then
    .sleepy
  else if timerDuration h.lookAwayStart timestamp ≥ config.lookAwayDuration
      ∨ hand.handsFidgeting = true ∨ hand.handOverFace = true
      ∨ isNegativeExpression cv.expressionLabel = true then
    .distracted
  else if cv.facePresent = true ∧ cv.lookingAway = false ∧ cv.eyesClosed = false then
    .engaged
  else
    .distracted

/-- `calculateEngagementScore` from `engagementEngine.ts`: additive score
from the baseline, clamped to `[0, 100]` after rounding. -/
def calculateEngagementScore (config : EngagementConfig) (state : EngagementState)
    (cv : CVMetrics) (hand : HandMetrics) : ℤ :=
  let s0 : ℚ := config.baselineScore + config.stateWeights.get state
  let s1 : ℚ := if cv.facePresent then s0 + 5 else s0
  let s2 : ℚ :=
    if cv.expressionLabel == "happy" || cv.expressionLabel == "neutral" then s1 + 5 else s1
  let s3 : ℚ := if hand.handsFidgeting then s2 - 10 else s2
  let s4 : ℚ := if hand.handOverFace then s3 - 15 else s3
  let s5 : ℚ := if cv.eyeAspectRatio < 15/100 then s4 - 20 else s4
  let s6 : ℚ := if cv.mouthOpenRatio > 8/10 then s5 - 15 else s5
  max 0 (min 100 (jsRound s6))

/-- `calculateConfidence` from `engagementEngine.ts`: `0.5` base plus
non-negative detection-quality increments, clamped to `[0, 1]`. -/
def calculateConfidence (cv : CVMetrics) (_hand : HandMetrics) : ℚ :=
  let c0 : ℚ := 1/2
  let c1 : ℚ := if cv.facePresent then c0 + 3/10 else c0
  let c2 : ℚ := if cv.eyeAspectRatio > 0 then c1 + 1/10 else c1
  let c3 : ℚ := if cv.expressionLabel ≠ "unknown" then c2 + 1/10 else c2
  max 0 (min 1 c3)

/-- `EngagementMetrics` from `engagementEngine.ts`, the per-tick output. -/
structure EngagementMetrics where
  state : EngagementState
  score : ℤ
  confidence : ℚ
  timestamp : ℚ
deriving DecidableEq, Repr

/-- The mutable fields of one `EngagementEngine` instance. -/
structure EngineState where
  config : EngagementConfig
  stateHistory : StateHistory
  scoreHistory : List ℤ
deriving DecidableEq, Repr

/-- `maxHistoryLength` from `engagementEngine.ts`. -/
def maxHistoryLength : ℕ := 30

/-- `processFrame` from `engagementEngine.ts`: update the hysteresis
timers, classify, score, compute confidence and push to the score
history (shifting the oldest entry out past 30). -/
def processFrame (e : EngineState) (cv : CVMetrics) (hand : HandMetrics)
    (timestamp : ℚ) : EngineState × EngagementMetrics :=
  let h := updateStateHistory e.stateHistory cv timestamp
  let state := determineEngagementState e.config h cv hand timestamp
  let score := calculateEngagementScore e.config state cv hand
  let confidence := calculateConfidence cv hand
  let pushed := e.scoreHistory ++ [score]
  let sh := if pushed.length > maxHistoryLength then pushed.drop 1 else pushed
  ({ e with stateHistory := h, scoreHistory := sh },
   { state := state, score := score, confidence := confidence, timestamp := timestamp })

/-- The state field of a processed frame is the decision-list output on
the updated timers. -/
lemma processFrame_state (e : EngineState) (cv : CVMetrics) (hand : HandMetrics) (t : ℚ) :
    (processFrame e cv hand t).2.state
      = determineEngagementState e.config (updateStateHistory e.stateHistory cv t) cv hand t :=
  rfl

/-- `processFrame` keeps the configuration. -/
lemma processFrame_config (e : EngineState) (cv : CVMetrics) (hand : HandMetrics) (t : ℚ) :
    (processFrame e cv hand t).1.config = e.config := rfl

/-- `processFrame` advances the hysteresis timers by `updateStateHistory`. -/
lemma processFrame_stateHistory (e : EngineState) (cv : CVMetrics) (hand : HandMetrics)
    (t : ℚ) :
    (processFrame e cv hand t).1.stateHistory = updateStateHistory e.stateHistory cv t :=
  rfl

/-- The `extractMetrics` null-result fallback of `mediapipeHands.ts`:
total detection failure. -/
def noDetectionMetrics : CVMetrics :=
  { facePresent := false
    eyesClosed := false
    yawning := false
    lookingAway := true
    expressionLabel := "unknown"
    eyeAspectRatio := 0
    mouthOpenRatio := 0 }

/-- `SessionData` from `sessionStore.ts`: the in-memory state of one
running session (`startedAt`/`lastNudgeTime` are epoch timestamps in ms). -/
structure SessionData where
  id : String
  userId : String
  startedAt : ℚ
  endedAt : Option ℚ := none
  isActive : Bool
  isPaused : Bool
  duration : ℤ
  timeSeries : List EngagementMetrics
  lastNudgeTime : Option ℚ := none
  nudgeCount : ℕ
deriving DecidableEq, Repr

/-- The `Session` record of `idb.ts`, produced once by `stopSession`. -/
structure Session where
  id : String
  userId : String
  startedAt : ℚ
  endedAt : ℚ
  durationSec : ℤ
  engagedSec : ℤ
  distractedSec : ℤ
  awaySec : ℤ
  sleepySec : ℤ
  yawnCount : ℕ
  distractedEpisodes : ℕ
  version : ℕ
deriving DecidableEq, Repr

/-- The `TimeSeriesPoint` record of `idb.ts`. -/
structure TimeSeriesPoint where
  id : String
  sessionId : String
  tSec : ℤ
  state : EngagementState
  score : ℤ
deriving DecidableEq, Repr

/-- `NUDGE_COOLDOWN_MS` from `sessionStore.ts`. -/
def NUDGE_COOLDOWN_MS : ℚ := 60000

/-- `startSession` from `sessionStore.ts`. -/
def startSession (id userId : String) (now : ℚ) : SessionData :=
  { id := id
    userId := userId
    startedAt := now
    isActive := true
    isPaused := false
    duration := 0
    timeSeries := []
    nudgeCount := 0 }

/-- `pauseSession` from `sessionStore.ts`: the guard
`if (!currentSession || !currentSession.isActive) return` is a silent
no-op; the body never throws, so the result is always `Except.ok`. -/
def pauseSession (s : Option SessionData) : Except String (Option SessionData) :=
  match s with
  | none => .ok none
  | some c =>
    if !c.isActive then .ok (some c)
    else .ok (some { c with isPaused := true })

/-- `resumeSession` from `sessionStore.ts`. -/
def resumeSession (s : Option SessionData) : Except String (Option SessionData) :=
  match s with
  | none => .ok none
  | some c =>
    if !c.isActive then .ok (some c)
    else .ok (some { c with isPaused := false })

/-- `addMetrics` from `sessionStore.ts`: silently ignored unless the
session exists, is active and is not paused; otherwise appends the
metrics and sets `duration` to the new series length. -/
def addMetrics (s : Option SessionData) (metrics : EngagementMetrics) :
    Except String (Option SessionData) :=
  match s with
  | none => .ok none
  | some c =>
    if !c.isActive || c.isPaused then .ok (some c)
    else
      let updated := c.timeSeries ++ [metrics]
      .ok (some { c with timeSeries := updated, duration := (updated.length : ℤ) })

/-- `recordNudge` from `sessionStore.ts` (`Date.now()` passed in as `now`). -/
def recordNudge (s : Option SessionData) (now : ℚ) : Option SessionData :=
  match s with
  | none => none
  | some c => some { c with lastNudgeTime := some now, nudgeCount := c.nudgeCount + 1 }

/-- `shouldShowNudge` from `sessionStore.ts`: note the guard
`!currentSession.lastNudgeTime` is JavaScript-falsy, so a recorded
nudge time of `0` is treated like "never recorded". -/
def shouldShowNudge (s : Option SessionData) (currentTime : ℚ) : Bool :=
  match s with
  | none => true
  | some c =>
    if !truthy c.lastNudgeTime then true
    else decide (currentTime - c.lastNudgeTime.getD 0 ≥ NUDGE_COOLDOWN_MS)

/-- The per-state tick counts accumulated by the `reduce` in
`getEngagementStats`. -/
structure StateCounts where
  engaged : ℕ
  distracted : ℕ
  sleepy : ℕ
  away : ℕ
deriving DecidableEq, Repr

/-- One step of the `reduce`: `acc[point.state]++`. -/
def tallyState (acc : StateCounts) (p : EngagementMetrics) : StateCounts :=
  match p.state with
  | .engaged => { acc with engaged := acc.engaged + 1 }
  | .distracted => { acc with distracted := acc.distracted + 1 }
  | .sleepy => { acc with sleepy := acc.sleepy + 1 }
  | .away => { acc with away := acc.away + 1 }

/-- The counts of `getEngagementStats`. -/
def stateCounts (l : List EngagementMetrics) : StateCounts :=
  l.foldl tallyState ⟨0, 0, 0, 0⟩

/-- The rounded per-state percentages returned by `getEngagementStats`. -/
structure EngagementStats where
  engaged : ℤ
  distracted : ℤ
  sleepy : ℤ
  away : ℤ
deriving DecidableEq, Repr

/-- `getEngagementStats` from `sessionStore.ts`: zero for a missing or
empty session, otherwise each state's tick count over the total, times
100, rounded. -/
def getEngagementStats (s : Option SessionData) : EngagementStats :=
  match s with
  | none => ⟨0, 0, 0, 0⟩
  | some c =>
    if c.timeSeries.length = 0 then ⟨0, 0, 0, 0⟩
    else
      let total : ℚ := c.timeSeries.length
      let counts := stateCounts c.timeSeries
      { engaged := jsRound ((counts.engaged : ℚ) / total * 100)
        distracted := jsRound ((counts.distracted : ℚ) / total * 100)
        sleepy := jsRound ((counts.sleepy : ℚ) / total * 100)
        away := jsRound ((counts.away : ℚ) / total * 100) }

/-- Whether a point counts as distracting for episode counting:
`point.state === 'distracted' || point.state === 'sleepy'`. -/
def isDistractedPoint (p : EngagementMetrics) : Bool :=
  p.state == .distracted || p.state == .sleepy

/-- One iteration of the episode-counting `forEach` over the pair
(count so far, `inDistractedEpisode` flag). -/
def episodeStep (acc : ℕ × Bool) (p : EngagementMetrics) : ℕ × Bool :=
  if isDistractedPoint p && !acc.2 then (acc.1 + 1, true)
  else if !isDistractedPoint p then (acc.1, false)
  else acc

/-- The `distractedEpisodes` counter of `stopSession`. -/
def countDistractedEpisodes (l : List EngagementMetrics) : ℕ :=
  (l.foldl episodeStep (0, false)).1

/-- The full-resolution `timeSeriesPoints` array built by `stopSession`:
one point per accumulated metrics entry, `tSec` = its index. -/
def timeSeriesPoints (c : SessionData) : List TimeSeriesPoint :=
  c.timeSeries.enum.map fun ip =>
    { id := c.id ++ "-" ++ toString ip.1
      sessionId := c.id
      tSec := (ip.1 : ℤ)
      state := ip.2.state
      score := ip.2.score }

/-- The body of `stopSession` past its null guard: wall-clock duration,
stats-based per-state seconds, yawn count, episode count, the
full-resolution time-series points and the deactivated session state. -/
def stopSessionData (c : SessionData) (endedAt : ℚ) :
    Session × List TimeSeriesPoint × SessionData :=
  let duration : ℤ := ⌊(endedAt - c.startedAt) / 1000⌋
  let stats := getEngagementStats (some c)
  let distractedEpisodes := countDistractedEpisodes c.timeSeries
  let yawnCount := (c.timeSeries.filter fun p => p.state == .sleepy).length
  let record : Session :=
    { id := c.id
      userId := c.userId
      startedAt := c.startedAt
      endedAt := endedAt
      durationSec := duration
      engagedSec := jsRound ((stats.engaged : ℚ) * (duration : ℚ) / 100)
      distractedSec := jsRound ((stats.distracted : ℚ) * (duration : ℚ) / 100)
      awaySec := jsRound ((stats.away : ℚ) * (duration : ℚ) / 100)
      sleepySec := jsRound ((stats.sleepy : ℚ) * (duration : ℚ) / 100)
      yawnCount := yawnCount
      distractedEpisodes := distractedEpisodes
      version := 1 }
  (record, timeSeriesPoints c,
   { c with endedAt := some endedAt, isActive := false, duration := duration })

/-- `stopSession` from `sessionStore.ts`:
`if (!currentSession) throw new Error('No active session')`. -/
def stopSession (s : Option SessionData) (endedAt : ℚ) :
    Except String (Session × List TimeSeriesPoint × SessionData) :=
  match s with
  | none => .error "No active session"
  | some c => .ok (stopSessionData c endedAt)

/-- The index filter of `sync.ts`'s POST handler,
`timeSeries.filter((_, index) => index % 5 === 0)`, written with the
running index made explicit. -/
def downsampleFrom {α : Type} (i : ℕ) : List α → List α
  | [] => []
  | a :: l =>
    if i % 5 = 0 then a :: downsampleFrom (i + 1) l else downsampleFrom (i + 1) l

/-- The downsampled series stored by the sync route. -/
def downsampleTimeSeries (l : List TimeSeriesPoint) : List TimeSeriesPoint :=
  downsampleFrom 0 l

/-- Runs `processFrame` over a list of (sample, hand metrics, timestamp)
frames from an engine state, collecting the emitted metrics in order. -/
def runFrames (e : EngineState) : List (CVMetrics × HandMetrics × ℚ) → List EngagementMetrics
  | [] => []
  | f :: rest =>
    let r := processFrame e f.1 f.2.1 f.2.2
    r.2 :: runFrames r.1 rest

/-- Helper: `dropWhile` never lengthens a list. -/
lemma dropWhile_len_le {α : Type} (p : α → Bool) (l : List α) :
    (l.dropWhile p).length ≤ l.length := by
  induction l with
  | nil => simp
  | cons a l ih =>
    rw [List.dropWhile_cons]
    split
    · exact Nat.le_succ_of_le ih
    · simp

/-- Specification-side count of maximal runs of `true` in a boolean
sequence, following the spec's wording "a maximal run of consecutive
points": `false`s are skipped; each `true` opens one run and the rest
of that run is skipped wholesale. -/
def maximalRuns : List Bool → ℕ
  | [] => 0
  | false :: l => maximalRuns l
  | true :: l => 1 + maximalRuns (l.dropWhile fun b => b)
termination_by l => l.length
decreasing_by
  · simp only [List.length_cons]; omega
  · have := dropWhile_len_le (fun b : Bool => b) l
    simp only [List.length_cons]; omega

/-- The rising-edge counter on booleans, parametrised by the previous
in-episode flag. -/
def runsFrom (prev : Bool) : List Bool → ℕ
  | [] => 0
  | b :: l => (if b && !prev then 1 else 0) + runsFrom b l

/-- The episode-counting fold of `stopSession` computes the rising-edge
count from the running flag. -/
lemma episodes_foldl (l : List EngagementMetrics) (n : ℕ) (prev : Bool) :
    (l.foldl episodeStep (n, prev)).1 = n + runsFrom prev (l.map isDistractedPoint) := by
  induction l generalizing n prev with
  | nil => simp [runsFrom]
  | cons p l ih =>
    rw [List.foldl_cons, List.map_cons, runsFrom]
    rcases hd : isDistractedPoint p <;> rcases prev <;>
      (simp [episodeStep, hd, ih]; try omega)

/-- Counting from inside a run equals counting from outside once the
rest of the run is dropped. -/
lemma runsFrom_true_dropWhile (l : List Bool) :
    runsFrom true l = runsFrom false (l.dropWhile fun b => b) := by
  induction l with
  | nil => simp [runsFrom]
  | cons b l ih =>
    rcases b
    · simp [runsFrom, List.dropWhile_cons]
    · simpa [runsFrom, List.dropWhile_cons] using ih

/-- The rising-edge count starting out of an episode is the number of
maximal runs. -/
lemma runsFrom_false_eq_maximalRuns (l : List Bool) :
    runsFrom false l = maximalRuns l := by
  induction l using maximalRuns.induct with
  | case1 => simp [runsFrom, maximalRuns]
  | case2 l ih => simpa [runsFrom, maximalRuns] using ih
  | case3 l ih =>
    rw [runsFrom, maximalRuns, runsFrom_true_dropWhile, ih]
    simp

/-- `Math.round` is within one half of its argument. -/
lemma abs_jsRound_sub_le (x : ℚ) : |(jsRound x : ℚ) - x| ≤ 1/2 := by
  rw [abs_le]
  unfold jsRound
  constructor
  · have h := Int.lt_floor_add_one (x + 1/2)
    push_cast at h ⊢
    linarith
  · have h := Int.floor_le (x + 1/2)
    push_cast at h ⊢
    linarith

/-- The four state tallies of the `getEngagementStats` fold sum to the
series length. -/
lemma stateCounts_foldl (l : List EngagementMetrics) (acc : StateCounts) :
    (l.foldl tallyState acc).engaged + (l.foldl tallyState acc).distracted
      + (l.foldl tallyState acc).sleepy + (l.foldl tallyState acc).away
      = acc.engaged + acc.distracted + acc.sleepy + acc.away + l.length := by
  induction l generalizing acc with
  | nil => simp
  | cons p l ih =>
    rw [List.foldl_cons, ih]
    rcases hs : p.state <;> (simp [tallyState, hs]; omega)

/-- The four counts of `stateCounts` partition the series. -/
lemma stateCounts_sum (l : List EngagementMetrics) :
    (stateCounts l).engaged + (stateCounts l).distracted
      + (stateCounts l).sleepy + (stateCounts l).away = l.length := by
  unfold stateCounts
  rw [stateCounts_foldl]
  simp

/-- Element access through the sync-route index filter: the `i`-th kept
element is the source element at index `(5 - j % 5) % 5 + 5 * i`. -/
lemma downsampleFrom_getElem? {α : Type} (l : List α) (j i : ℕ) :
    (downsampleFrom j l)[i]? = l[(5 - j % 5) % 5 + 5 * i]? := by
  induction l generalizing j i with
  | nil => simp [downsampleFrom]
  | cons a l ih =>
    rw [downsampleFrom]
    by_cases h : j % 5 = 0
    · rw [if_pos h]
      rcases i with _ | i
      · have h0 : (5 - j % 5) % 5 + 5 * 0 = 0 := by omega
        rw [h0]
        simp
      · rw [List.getElem?_cons_succ, ih]
        have h5 : (5 - (j + 1) % 5) % 5 + 5 * i = 4 + 5 * i := by omega
        have h6 : (5 - j % 5) % 5 + 5 * (i + 1) = (4 + 5 * i) + 1 := by omega
        rw [h5, h6, List.getElem?_cons_succ]
    · rw [if_neg h, ih]
      have h5 : (5 - j % 5) % 5 + 5 * i = ((5 - (j + 1) % 5) % 5 + 5 * i) + 1 := by
        omega
      rw [h5, List.getElem?_cons_succ]

/-- Length through the sync-route index filter. -/
lemma downsampleFrom_length {α : Type} (l : List α) (j : ℕ) :
    (downsampleFrom j l).length = (l.length + 4 - (5 - j % 5) % 5) / 5 := by
  induction l generalizing j with
  | nil => simp [downsampleFrom]; omega
  | cons a l ih =>
    rw [downsampleFrom]
    by_cases h : j % 5 = 0
    · rw [if_pos h]
      simp only [List.length_cons, ih]
      omega
    · rw [if_neg h]
      simp only [List.length_cons, ih]
      omega

/-- A stationary hand sample: nothing detected. -/
def stillHands : HandMetrics :=
  { handsPresent := false, handsFidgeting := false, handOverFace := false,
    fidgetingIntensity := 0 }

/-- An adversarial hand sample: fidgeting with a hand over the face. -/
def busyHands : HandMetrics :=
  { handsPresent := true, handsFidgeting := true, handOverFace := true,
    fidgetingIntensity := 5 }

/-- A face-absent frame with every other flag benign. -/
def absentSample : CVMetrics :=
  { facePresent := false, eyesClosed := false, yawning := false, lookingAway := false,
    expressionLabel := "neutral", eyeAspectRatio := 3/10, mouthOpenRatio := 1/10 }

/-- A clean face-present frame: not looking away, eyes open. -/
def presentSample : CVMetrics := { absentSample with facePresent := true }

/-- A freshly constructed engine: default config, empty histories. -/
def initialEngine : EngineState :=
  { config := defaultConfig, stateHistory := {}, scoreHistory := [] }

/-- A concrete accumulated metrics entry in a given state. -/
def mkPoint (s : EngagementState) : EngagementMetrics :=
  { state := s, score := 70, confidence := 1/2, timestamp := 0 }

/-- A concrete running session (started at epoch 0, active, unpaused)
holding a given accumulated series. -/
def demoSession (l : List EngagementMetrics) : SessionData :=
  { id := "session-1", userId := "user-1", startedAt := 0, isActive := true,
    isPaused := false, duration := (l.length : ℤ), timeSeries := l, nudgeCount := 0 }

/-- The spec's hysteresis scenario: three face-absent ticks at 0, 1000
and 2000 ms, then a clean recovery frame at 2100 ms. -/
def scenarioFrames : List (CVMetrics × HandMetrics × ℚ) :=
  [(absentSample, stillHands, 0), (absentSample, stillHands, 1000),
   (absentSample, stillHands, 2000), (presentSample, stillHands, 2100)]

/-- C3 (code-bug evidence): on the spec's scenario the engine returns
`distracted` on the 2000 ms tick — where cumulative face absence first
reaches 2.0 s and the spec demands `away` — because the face-absence
start timestamp `0` stored at the first tick is JavaScript-falsy, so
the `!faceAbsentStart` guard silently restarts the timer at the
1000 ms tick.  The recovery tick at 2100 ms does return `engaged`. -/
theorem scenario_states_eval :
    (runFrames initialEngine scenarioFrames).map EngagementMetrics.state
      = [.distracted, .distracted, .distracted, .engaged] := by
  norm_num [runFrames, scenarioFrames, processFrame_state, processFrame_config,
    processFrame_stateHistory, updateStateHistory, updateTimer, truthy,
    determineEngagementState, timerDuration, absentSample, presentSample, stillHands,
    initialEngine, defaultConfig, isNegativeExpression]
  rintro (h | h | h | h | h) <;> simp at h

/-- C4 counterexample: invoked with no session at all, `pauseSession`
and `addMetrics` return `Except.ok` with the state unchanged — a silent
no-op, not a reported error. -/
theorem lifecycle_silent_noop_counterexample :
    pauseSession none = Except.ok none
    ∧ addMetrics none (mkPoint .engaged) = Except.ok none := ⟨rfl, rfl⟩

/-- C4 (amended): of the three lifecycle operations called with no
active session, only `stopSession` reports the misuse (it throws
"No active session"); `pauseSession` and `addMetrics` silently return
with the state unchanged. -/
theorem lifecycle_misuse_reporting (endedAt : ℚ) (m : EngagementMetrics) :
    stopSession none endedAt = Except.error "No active session"
    ∧ pauseSession none = Except.ok none
    ∧ addMetrics none m = Except.ok none := ⟨rfl, rfl, rfl⟩

/-- C6: the `distractedEpisodes` count in the record produced by
`stopSession` equals the number of maximal runs of consecutive
{distracted, sleepy} points in the accumulated series — for every
series and stop time, independent of run lengths: the fold's counter
rises exactly on false→true transitions of the in-episode flag. -/
theorem distractedEpisodes_eq_maximalRuns (c : SessionData) (endedAt : ℚ) :
    (stopSessionData c endedAt).1.distractedEpisodes
      = maximalRuns (c.timeSeries.map isDistractedPoint) := by
  show countDistractedEpisodes c.timeSeries = _
  unfold countDistractedEpisodes
  rw [episodes_foldl, runsFrom_false_eq_maximalRuns]
  omega

/-- C7: whenever the face-absence duration measured at a tick (from the
updated timers, exactly as the code measures it) is ≥ 2.0 s, the state
returned by `processFrame` is `away` — regardless of the eyes-closed,
yawn and look-away timers, hand metrics and expression: the away rule
pre-empts sleepy and distracted by list order. -/
theorem away_preempts_all (e : EngineState) (cv : CVMetrics) (hand : HandMetrics) (t : ℚ)
    (h : 2 ≤ timerDuration (updateStateHistory e.stateHistory cv t).faceAbsentStart t) :
    (processFrame e cv hand t).2.state = .away := by
  have hface : cv.facePresent = false := by
    rcases hf : cv.facePresent
    · rfl
    · rw [show (updateStateHistory e.stateHistory cv t).faceAbsentStart = none by
        simp [updateStateHistory, updateTimer, hf]] at h
      norm_num [timerDuration] at h
  show determineEngagementState e.config (updateStateHistory e.stateHistory cv t) cv hand t
    = .away
  rw [determineEngagementState]
  simp [hface, h]

/-- The adversarially armed timer history used as the C7 witness. -/
def witnessHistory : StateHistory :=
  { eyesClosedStart := some 100, yawnStart := some 100, lookAwayStart := some 100,
    faceAbsentStart := some 500 }

/-- An engine whose every hysteresis timer is armed. -/
def witnessEngine : EngineState :=
  { config := defaultConfig, stateHistory := witnessHistory, scoreHistory := [] }

/-- A frame with every distraction and sleepiness flag raised while the
face is absent. -/
def witnessSample : CVMetrics :=
  { facePresent := false, eyesClosed := true, yawning := true, lookingAway := true,
    expressionLabel := "angry", eyeAspectRatio := 1/10, mouthOpenRatio := 9/10 }

/-- Witness for C7: at 2500 ms with absence since 500 ms (duration
exactly 2.0 s) and every other flag adversarial, the state is `away`. -/
theorem away_preempts_all_witness :
    2 ≤ timerDuration
        (updateStateHistory witnessEngine.stateHistory witnessSample 2500).faceAbsentStart 2500
    ∧ (processFrame witnessEngine witnessSample busyHands 2500).2.state = .away :=
  ⟨by norm_num [witnessEngine, witnessHistory, witnessSample, updateStateHistory,
      updateTimer, truthy, timerDuration],
   away_preempts_all witnessEngine witnessSample busyHands 2500
     (by norm_num [witnessEngine, witnessHistory, witnessSample, updateStateHistory,
        updateTimer, truthy, timerDuration])⟩

/-- The empty running session used in the nudge theorems. -/
def nudgeSession : SessionData := demoSession []

/-- C8 counterexample: a nudge recorded at epoch time 0 (so
`nudgeCount = 1`: a nudge *has* been recorded) is treated as "never
recorded" by the JavaScript-falsy guard `!lastNudgeTime`, so a call
only 1000 ms later returns `true` where the claimed iff demands
`false`. -/
theorem shouldShowNudge_counterexample :
    (recordNudge (some nudgeSession) 0).map SessionData.nudgeCount = some 1
    ∧ shouldShowNudge (recordNudge (some nudgeSession) 0) 1000 = true
    ∧ ¬((1000 : ℚ) - 0 ≥ 60000) :=
  ⟨rfl, by norm_num [shouldShowNudge, recordNudge, nudgeSession, demoSession, truthy],
   by norm_num⟩

/-- C8 (amended): `shouldShowNudge now` is `true` iff no nudge has been
recorded, or the recorded time is the falsy value `0`, or
`now − lastNudgeTime ≥ 60000` ms; in particular after `recordNudge` at
any nonzero time `t` a call at `now` allows a nudge iff
`now − t ≥ 60000`, so a second call less than 60000 ms after the
recorded nudge yields `false` and one ≥ 60000 ms after yields `true`. -/
theorem shouldShowNudge_cooldown (c : SessionData) (now t : ℚ) (ht : t ≠ 0) :
    (c.lastNudgeTime = none → shouldShowNudge (some c) now = true)
    ∧ (c.lastNudgeTime = some 0 → shouldShowNudge (some c) now = true)
    ∧ (shouldShowNudge (recordNudge (some c) t) now = true ↔ now - t ≥ 60000) := by
  refine ⟨fun h => ?_, fun h => ?_, ?_⟩
  · simp [shouldShowNudge, truthy, h]
  · simp [shouldShowNudge, truthy, h]
  · simp [shouldShowNudge, recordNudge, truthy, ht, NUDGE_COOLDOWN_MS]

/-- Witness for C8: recording at t = 1 and querying at 70000 (≥ one
minute later) allows the nudge; the cooldown iff is exercised at a
concrete nonzero time. -/
theorem shouldShowNudge_cooldown_witness :
    (nudgeSession.lastNudgeTime = none → shouldShowNudge (some nudgeSession) 70000 = true)
    ∧ (nudgeSession.lastNudgeTime = some 0 → shouldShowNudge (some nudgeSession) 70000 = true)
    ∧ (shouldShowNudge (recordNudge (some nudgeSession) 1) 70000 = true
        ↔ (70000 : ℚ) - 1 ≥ 60000) :=
  shouldShowNudge_cooldown nudgeSession 70000 1 (by norm_num)

/-- C9: every record returned by `processFrame` carries a score in
`[0, 100]` (integral by construction: `Math.round` then clamp) and a
confidence in `[0, 1]`, for every engine state, configuration, frame,
hand metrics and timestamp. -/
theorem processFrame_score_confidence_bounds (e : EngineState) (cv : CVMetrics)
    (hand : HandMetrics) (t : ℚ) :
    0 ≤ (processFrame e cv hand t).2.score ∧ (processFrame e cv hand t).2.score ≤ 100
    ∧ 0 ≤ (processFrame e cv hand t).2.confidence
    ∧ (processFrame e cv hand t).2.confidence ≤ 1 :=
  ⟨le_max_left _ _, max_le (by norm_num) (min_le_left _ _),
    le_max_left _ _, max_le (by norm_num) (min_le_left _ _)⟩

/-- C10: the confidence returned by `processFrame` is never below the
0.5 base — the increments are all non-negative — and on the
`extractMetrics` total-detection-failure sample it is exactly 0.5. -/
theorem processFrame_confidence_at_least_half (e e' : EngineState) (cv : CVMetrics)
    (hand hand' : HandMetrics) (t t' : ℚ) :
    1/2 ≤ (processFrame e cv hand t).2.confidence
    ∧ (processFrame e' noDetectionMetrics hand' t').2.confidence = 1/2 := by
  constructor
  · show (1/2 : ℚ) ≤ calculateConfidence cv hand
    unfold calculateConfidence
    split_ifs <;> norm_num
  · show calculateConfidence noDetectionMetrics hand' = 1/2
    norm_num [calculateConfidence, noDetectionMetrics]

/-- A six-point accumulated series. -/
def sixPointSeries : List EngagementMetrics :=
  [mkPoint .engaged, mkPoint .engaged, mkPoint .distracted, mkPoint .engaged,
   mkPoint .sleepy, mkPoint .engaged]

/-- C1 counterexample: for a session with six accumulated points,
`stopSession` produces six stored `TimeSeriesPoint`s — the full series
at full resolution — not the `⌈6/5⌉ = 2` the claim's
stride-5-at-`stop()` demands. -/
theorem stop_no_downsampling_counterexample :
    (stopSessionData (demoSession sixPointSeries) 6000).2.1.length
      ≠ ((demoSession sixPointSeries).timeSeries.length + 4) / 5 := by
  show (timeSeriesPoints (demoSession sixPointSeries)).length ≠ _
  simp [timeSeriesPoints, demoSession, sixPointSeries]

/-- C1 (amended): `stopSession` stores the accumulated series at full
resolution — one `TimeSeriesPoint` per entry, with the entry's state and
score; the every-5th-index striding (`⌈n/5⌉` points, stored point `i`
equal to full-series point `5 i`) is applied by the sync route's upload
handler, not at `stop()`. -/
theorem downsampling_in_sync_route (c : SessionData) (e : ℚ)
    (l : List TimeSeriesPoint) (i : ℕ) :
    ((stopSessionData c e).2.1.length = c.timeSeries.length
      ∧ ((stopSessionData c e).2.1[i]?).map (fun p => (p.state, p.score))
          = (c.timeSeries[i]?).map (fun m => (m.state, m.score)))
    ∧ (downsampleTimeSeries l).length = (l.length + 4) / 5
    ∧ (downsampleTimeSeries l)[i]? = l[5 * i]? := by
  refine ⟨⟨?_, ?_⟩, ?_, ?_⟩
  · show (timeSeriesPoints c).length = _
    simp [timeSeriesPoints]
  · show ((timeSeriesPoints c)[i]?).map _ = _
    rw [timeSeriesPoints, List.getElem?_map, List.getElem?_enum]
    cases c.timeSeries[i]? <;> simp
  · show (downsampleFrom 0 l).length = _
    rw [downsampleFrom_length]
    norm_num
  · show (downsampleFrom 0 l)[i]? = _
    rw [downsampleFrom_getElem?]
    norm_num

/-- A three-point accumulated series. -/
def threePointSeries : List EngagementMetrics :=
  [mkPoint .engaged, mkPoint .engaged, mkPoint .engaged]

/-- C2 counterexample: a session with 3 accumulated samples stopped
after 10 s of wall clock records `durationSec = 10`, not
`len(timeSeries) = 3`. -/
theorem durationSec_counterexample :
    (stopSessionData (demoSession threePointSeries) 10000).1.durationSec
      ≠ ((demoSession threePointSeries).timeSeries.length : ℤ) := by
  show ⌊((10000 : ℚ) - (demoSession threePointSeries).startedAt) / 1000⌋ ≠ _
  norm_num [demoSession, threePointSeries]

/-- C2 (amended): the `durationSec` stored in the record produced by
`stopSession` is the wall-clock `⌊(endedAt − startedAt) / 1000⌋`; it is
the in-session `duration` field maintained by `addMetrics` that equals
the number of accumulated samples (one tick per sample). -/
theorem durationSec_wall_clock (c : SessionData) (e : ℚ) (m : EngagementMetrics)
    (cc : SessionData) (h1 : c.isActive = true) (h2 : c.isPaused = false)
    (h3 : addMetrics (some c) m = Except.ok (some cc)) :
    (stopSessionData c e).1.durationSec = ⌊(e - c.startedAt) / 1000⌋
    ∧ cc.duration = (cc.timeSeries.length : ℤ) := by
  refine ⟨rfl, ?_⟩
  rw [addMetrics] at h3
  rw [if_neg (by simp [h1, h2])] at h3
  obtain rfl : ({ c with
      timeSeries := c.timeSeries ++ [m],
      duration := ((c.timeSeries ++ [m]).length : ℤ) } : SessionData) = cc := by
    simpa using h3
  simp

/-- The session state after one `addMetrics` on the three-point demo. -/
def afterAdd : SessionData :=
  { demoSession threePointSeries with
    timeSeries := threePointSeries ++ [mkPoint .away], duration := 4 }

/-- Witness for C2 at a concrete session: 3 samples, stop at 5 s. -/
theorem durationSec_wall_clock_witness :
    ((demoSession threePointSeries).isActive = true
      ∧ (demoSession threePointSeries).isPaused = false
      ∧ addMetrics (some (demoSession threePointSeries)) (mkPoint .away)
          = Except.ok (some afterAdd))
    ∧ ((stopSessionData (demoSession threePointSeries) 5000).1.durationSec
        = ⌊((5000 : ℚ) - (demoSession threePointSeries).startedAt) / 1000⌋
      ∧ afterAdd.duration = (afterAdd.timeSeries.length : ℤ)) :=
  ⟨⟨rfl, rfl, by simp [addMetrics, demoSession, afterAdd, threePointSeries]⟩,
   durationSec_wall_clock (demoSession threePointSeries) 5000 (mkPoint .away) afterAdd
     rfl rfl (by simp [addMetrics, demoSession, afterAdd, threePointSeries])⟩

/-- Core rounding-error bound for the percentage → seconds round trip:
four pre-round percentages summing to 100, each rounded, multiplied by a
non-negative duration over 100 and rounded again, sum to the duration
within `2 + D/50`. -/
lemma fourRound_sum_bound (xe xd xs xa : ℚ) (D : ℤ)
    (hx : xe + xd + xs + xa = 100) (hD : (0 : ℤ) ≤ D) :
    50 * |jsRound ((jsRound xe : ℚ) * (D : ℚ) / 100)
        + jsRound ((jsRound xd : ℚ) * (D : ℚ) / 100)
        + jsRound ((jsRound xs : ℚ) * (D : ℚ) / 100)
        + jsRound ((jsRound xa : ℚ) * (D : ℚ) / 100) - D|
      ≤ 100 + D := by
  have hDq : (0 : ℚ) ≤ (D : ℚ) := Int.cast_nonneg.mpr hD
  have hd100 : (0 : ℚ) ≤ (D : ℚ) / 100 := by positivity
  obtain ⟨ha1, ha2⟩ := abs_le.mp (abs_jsRound_sub_le xe)
  obtain ⟨hb1, hb2⟩ := abs_le.mp (abs_jsRound_sub_le xd)
  obtain ⟨hc1, hc2⟩ := abs_le.mp (abs_jsRound_sub_le xs)
  obtain ⟨hd1, hd2⟩ := abs_le.mp (abs_jsRound_sub_le xa)
  obtain ⟨he1, he2⟩ := abs_le.mp (abs_jsRound_sub_le ((jsRound xe : ℚ) * (D : ℚ) / 100))
  obtain ⟨hf1, hf2⟩ := abs_le.mp (abs_jsRound_sub_le ((jsRound xd : ℚ) * (D : ℚ) / 100))
  obtain ⟨hg1, hg2⟩ := abs_le.mp (abs_jsRound_sub_le ((jsRound xs : ℚ) * (D : ℚ) / 100))
  obtain ⟨hh1, hh2⟩ := abs_le.mp (abs_jsRound_sub_le ((jsRound xa : ℚ) * (D : ℚ) / 100))
  have hsum_up : ((jsRound xe : ℚ) + jsRound xd + jsRound xs + jsRound xa) ≤ 102 := by
    linarith
  have hsum_lo : (98 : ℚ) ≤ (jsRound xe : ℚ) + jsRound xd + jsRound xs + jsRound xa := by
    linarith
  have hup : ((jsRound xe : ℚ) + jsRound xd + jsRound xs + jsRound xa) * ((D : ℚ) / 100)
      ≤ 102 * ((D : ℚ) / 100) :=
    mul_le_mul_of_nonneg_right hsum_up hd100
  have hlo : 98 * ((D : ℚ) / 100)
      ≤ ((jsRound xe : ℚ) + jsRound xd + jsRound xs + jsRound xa) * ((D : ℚ) / 100) :=
    mul_le_mul_of_nonneg_right hsum_lo hd100
  have hz : |(jsRound ((jsRound xe : ℚ) * (D : ℚ) / 100) : ℚ)
      + jsRound ((jsRound xd : ℚ) * (D : ℚ) / 100)
      + jsRound ((jsRound xs : ℚ) * (D : ℚ) / 100)
      + jsRound ((jsRound xa : ℚ) * (D : ℚ) / 100) - (D : ℚ)|
      ≤ (100 + (D : ℚ)) / 50 := by
    rw [abs_le]
    constructor <;> linarith
  have key : (50 : ℚ) * |(jsRound ((jsRound xe : ℚ) * (D : ℚ) / 100) : ℚ)
      + jsRound ((jsRound xd : ℚ) * (D : ℚ) / 100)
      + jsRound ((jsRound xs : ℚ) * (D : ℚ) / 100)
      + jsRound ((jsRound xa : ℚ) * (D : ℚ) / 100) - (D : ℚ)|
      ≤ 100 + (D : ℚ) := by linarith
  exact_mod_cast key

/-- C5 (amended): the four per-state seconds of the stopped record sum
to the record's total duration within `±(2 + durationSec/50)` — i.e.
`50·|sum − durationSec| ≤ 100 + durationSec` — for every session with a
nonempty accumulated series and `startedAt ≤ endedAt`.  The claimed
fixed `±4` tolerance holds only while `durationSec ≤ 100`: the rounded
percentages can sum to `100 ± 2`, an error that scales with duration. -/
theorem perStateSeconds_sum_bound (c : SessionData) (e : ℚ)
    (hne : c.timeSeries ≠ []) (hse : c.startedAt ≤ e) :
    50 * |(stopSessionData c e).1.engagedSec + (stopSessionData c e).1.distractedSec
        + (stopSessionData c e).1.sleepySec + (stopSessionData c e).1.awaySec
        - (stopSessionData c e).1.durationSec|
      ≤ 100 + (stopSessionData c e).1.durationSec := by
  have hn0 : c.timeSeries.length ≠ 0 := fun h => hne (List.length_eq_zero.mp h)
  have hnq : (c.timeSeries.length : ℚ) ≠ 0 := Nat.cast_ne_zero.mpr hn0
  have hksum : ((stateCounts c.timeSeries).engaged : ℚ)
      + ((stateCounts c.timeSeries).distracted : ℚ)
      + ((stateCounts c.timeSeries).sleepy : ℚ) + ((stateCounts c.timeSeries).away : ℚ)
      = (c.timeSeries.length : ℚ) := by
    exact_mod_cast stateCounts_sum c.timeSeries
  have hstats : getEngagementStats (some c) =
      { engaged := jsRound (((stateCounts c.timeSeries).engaged : ℚ)
          / (c.timeSeries.length : ℚ) * 100)
        distracted := jsRound (((stateCounts c.timeSeries).distracted : ℚ)
          / (c.timeSeries.length : ℚ) * 100)
        sleepy := jsRound (((stateCounts c.timeSeries).sleepy : ℚ)
          / (c.timeSeries.length : ℚ) * 100)
        away := jsRound (((stateCounts c.timeSeries).away : ℚ)
          / (c.timeSeries.length : ℚ) * 100) } := by
    simp only [getEngagementStats]
    rw [if_neg hn0]
  simp only [stopSessionData, hstats]
  exact fourRound_sum_bound _ _ _ _ _
    (by field_simp; linarith)
    (Int.floor_nonneg.mpr (div_nonneg (sub_nonneg.mpr hse) (by norm_num)))

/-- A skewed eight-point series: five engaged points and one point each
of the other three states (percentages 62.5 and 12.5 all round up). -/
def skewedSeries : List EngagementMetrics :=
  List.replicate 5 (mkPoint .engaged)
    ++ [mkPoint .distracted, mkPoint .sleepy, mkPoint .away]

/-- C5 counterexample: stopping the skewed eight-point session after
1000 s of wall clock yields per-state seconds 630 + 130 + 130 + 130 =
1020 against `durationSec = 1000` — an error of 20, far beyond the
claimed `±4`: the four rounded-up percentages sum to 102. -/
theorem perStateSeconds_counterexample :
    ¬(|(stopSessionData (demoSession skewedSeries) 1000000).1.engagedSec
        + (stopSessionData (demoSession skewedSeries) 1000000).1.distractedSec
        + (stopSessionData (demoSession skewedSeries) 1000000).1.sleepySec
        + (stopSessionData (demoSession skewedSeries) 1000000).1.awaySec
        - (stopSessionData (demoSession skewedSeries) 1000000).1.durationSec| ≤ 4) := by
  norm_num [stopSessionData, getEngagementStats, stateCounts, tallyState, jsRound,
    demoSession, skewedSeries, mkPoint, List.replicate]

/-- Witness for C5 at the six-point demo session stopped after 7 s. -/
theorem perStateSeconds_sum_bound_witness :
    (demoSession sixPointSeries).timeSeries ≠ []
    ∧ (demoSession sixPointSeries).startedAt ≤ 7000
    ∧ 50 * |(stopSessionData (demoSession sixPointSeries) 7000).1.engagedSec
        + (stopSessionData (demoSession sixPointSeries) 7000).1.distractedSec
        + (stopSessionData (demoSession sixPointSeries) 7000).1.sleepySec
        + (stopSessionData (demoSession sixPointSeries) 7000).1.awaySec
        - (stopSessionData (demoSession sixPointSeries) 7000).1.durationSec|
      ≤ 100 + (stopSessionData (demoSession sixPointSeries) 7000).1.durationSec :=
  ⟨by simp [demoSession, sixPointSeries], by norm_num [demoSession],
   perStateSeconds_sum_bound (demoSession sixPointSeries) 7000
     (by simp [demoSession, sixPointSeries]) (by norm_num [demoSession])⟩

end StudyTracker
